import Mathlib

/-!
Shallow embedding of the computational core of `app.py` (Vishleshan smart-city
dashboard): KPI aggregation (`calculate_kpis`), rule-based event detection
(`detect_events`), zone stress scoring, per-hour traffic anomaly detection and
the cross-domain correlation matrix of `show_advanced_insights`.

Conventions of the embedding:
* pandas numeric columns become `ℚ`-valued fields; pandas `NaN` results
  (mean/max/std over an empty selection) become `Option.none`;
* a Python exception (the unguarded division in `calculate_kpis`) makes the
  embedded function return `none` for the whole call;
* `datetime.now()` and `np.random.randint` are modelled by an explicit
  detection time `now : ℤ` (minutes) and a draw stream `rng : ℕ → ℕ`; the
  i-th call of `np.random.randint(1, hi)` is modelled as `1 + rng i % (hi-1)`,
  which has exactly the range `[1, hi)` of the original;
* Python string interpolation is modelled with `toString` of the embedded
  value (the decimal rendering of floats is abstracted; no property below
  depends on the exact digits).
-/

namespace Vishleshan

/-- One row of `pune_citizen_grievances.csv` (columns used by `app.py`). -/
structure GrievanceRecord where
  date : ℕ
  zone : String
  ticket_id : String
  department : String
  issue_type : String
  status : String
  sla_days : ℤ
deriving DecidableEq

/-- One row of `pune_energy_consumption.csv` (columns used by `app.py`). -/
structure EnergyRecord where
  date : ℕ
  hour : ℕ
  zone : String
  energy_kwh : ℚ
  grid_voltage : ℚ
  power_cut_flag : ℕ
deriving DecidableEq

/-- One row of `pune_traffic_flow.csv` (columns used by `app.py`). -/
structure TrafficRecord where
  date : ℕ
  hour : ℕ
  zone : String
  congestion_index : ℚ
deriving DecidableEq

/-- One row of `pune_waste_management.csv` (columns used by `app.py`). -/
structure WasteRecord where
  date : ℕ
  zone : String
  total_waste_kg : ℚ
  avg_bin_fill_percent : ℚ
  segregation_efficiency_percent : ℚ
  missed_pickups : ℕ
deriving DecidableEq

/-- Mean of a nonempty list, as a total function (used where nonemptiness is
known from context). -/
def meanQ (l : List ℚ) : ℚ := l.sum / l.length

/-- pandas `Series.mean()`: `NaN` (here `none`) on an empty selection. -/
def meanOpt (l : List ℚ) : Option ℚ :=
  match l with
  | [] => none
  | _ => some (meanQ l)

/-- pandas `Series.max()`: `NaN` (here `none`) on an empty selection. -/
def maxOpt (l : List ℚ) : Option ℚ :=
  match l with
  | [] => none
  | x :: xs => some (xs.foldl max x)

/-- `grievances['Status'] == 'Open'`. -/
def isOpen (r : GrievanceRecord) : Bool := r.status == "Open"

/-- `grievances['Status'] == 'Resolved'`. -/
def isResolved (r : GrievanceRecord) : Bool := r.status == "Resolved"

/-- `(grievances['Status'] == 'Open') & (grievances['SLA_Days'] <= 1)`. -/
def isSlaBreach (r : GrievanceRecord) : Bool := r.status == "Open" && r.sla_days ≤ 1

/-- `energy['Power_Cut_Flag'] == 1`. -/
def isPowerCut (r : EnergyRecord) : Bool := r.power_cut_flag == 1

/-- `energy['Grid_Voltage'] < 220`. -/
def isLowVoltage (r : EnergyRecord) : Bool := r.grid_voltage < 220

/-- `traffic['Congestion_Index'] > 85`. -/
def isCriticalCongestion (r : TrafficRecord) : Bool := r.congestion_index > 85

/-- `waste['Avg_Bin_Fill_Level_Percent'] > 85`. -/
def isOverflowBin (r : WasteRecord) : Bool := r.avg_bin_fill_percent > 85

/-- Body of the `for zone in traffic['Zone_Name'].unique()` loop of
`calculate_kpis` (app.py lines 158-163): per-zone congestion mean (NaN
propagates through the sum, hence `Option.map`) plus weighted power-cut,
missed-pickup and open-grievance terms. -/
def zoneStress (g : List GrievanceRecord) (e : List EnergyRecord)
    (t : List TrafficRecord) (w : List WasteRecord) (z : String) : Option ℚ :=
  (meanOpt ((t.filter (fun r => r.zone == z)).map (·.congestion_index))).map
    (fun m =>
      m + (((((e.filter (fun r => r.zone == z)).map (·.power_cut_flag)).sum : ℕ)) : ℚ) * 20
        + (((((w.filter (fun r => r.zone == z)).map (·.missed_pickups)).sum : ℕ)) : ℚ) * 10
        + (((g.filter (fun r => r.zone == z && isOpen r)).length : ℚ)) * 5)

/-- The `zone_stress` dict of `calculate_kpis`, keyed by
`traffic['Zone_Name'].unique()` (first-occurrence order, as in pandas). -/
def zoneStressMap (g : List GrievanceRecord) (e : List EnergyRecord)
    (t : List TrafficRecord) (w : List WasteRecord) : List (String × Option ℚ) :=
  ((t.map (·.zone)).dedup).map (fun z => (z, zoneStress g e t w z))

/-- The dict returned by `calculate_kpis` (app.py lines 165-180). Fields that
pandas can make `NaN` are `Option ℚ`. -/
structure KPISnapshot where
  avg_energy : Option ℚ
  power_cuts : ℕ
  voltage_issues : ℕ
  avg_congestion : Option ℚ
  peak_congestion : Option ℚ
  flow_efficiency : Option ℚ
  avg_bin_fill : Option ℚ
  missed_pickups : ℕ
  avg_segregation : Option ℚ
  total_grievances : ℕ
  open_grievances : ℕ
  critical_issues : ℕ
  resolution_rate : ℚ
  zone_stress : List (String × Option ℚ)
deriving DecidableEq

/-- `calculate_kpis` (app.py lines 139-180). The division
`len(grievances[...=='Resolved']) / total_grievances` on line 155 is a plain
Python integer division with no guard: when the grievance collection is empty
it raises `ZeroDivisionError`, modelled here by returning `none` for the whole
call. -/
def calculate_kpis (g : List GrievanceRecord) (e : List EnergyRecord)
    (t : List TrafficRecord) (w : List WasteRecord) : Option KPISnapshot :=
  let avg_congestion := meanOpt (t.map (·.congestion_index))
  if g.length = 0 then
    none
  else
    some {
      avg_energy := meanOpt (e.map (·.energy_kwh))
      power_cuts := (e.map (·.power_cut_flag)).sum
      voltage_issues := e.countP isLowVoltage
      avg_congestion := avg_congestion
      peak_congestion := maxOpt (t.map (·.congestion_index))
      flow_efficiency := avg_congestion.map (fun a => 1 - a / 100)
      avg_bin_fill := meanOpt (w.map (·.avg_bin_fill_percent))
      missed_pickups := (w.map (·.missed_pickups)).sum
      avg_segregation := meanOpt (w.map (·.segregation_efficiency_percent))
      total_grievances := g.length
      open_grievances := g.countP isOpen
      critical_issues := g.countP isSlaBreach
      resolution_rate := (g.countP isResolved : ℚ) / (g.length : ℚ)
      zone_stress := zoneStressMap g e t w }

/-- Rounding to the nearest integer (half away from zero on the positive
side), `⌊q + 1/2⌋` computed on numerator and denominator: models the Python
`:.0f` format of the bin-overflow message (the half-even tie-break of Python
float formatting is abstracted; no claim depends on ties). -/
def ratRoundHalfUp (q : ℚ) : ℤ := Int.fdiv (2 * q.num + q.den) (2 * q.den)

/-- An entry of the `events` list built by `detect_events`: the dict keys
`type`, `domain`, `message`, `action`, `timestamp` (minutes, as `ℤ`). -/
structure Event where
  type : String
  domain : String
  message : String
  action : String
  timestamp : ℤ
deriving DecidableEq

/-- Event of the critical-congestion rule (app.py lines 189-195); `d` is the
value drawn for `np.random.randint(1, 60)`. -/
def mkTrafficEvent (now : ℤ) (d : ℕ) (r : TrafficRecord) : Event :=
  { type := "CRITICAL"
    domain := "Traffic"
    message := "Severe congestion at " ++ r.zone ++ " - Index: " ++ toString r.congestion_index
    action := "Deploy traffic management team"
    timestamp := now - (1 + (d % 59) : ℕ) }

/-- Event of the power-cut rule (app.py lines 200-206); draw for
`np.random.randint(1, 90)`. -/
def mkPowerEvent (now : ℤ) (d : ℕ) (r : EnergyRecord) : Event :=
  { type := "CRITICAL"
    domain := "Energy"
    message := "Power outage in " ++ r.zone ++ " at " ++ toString r.hour ++ ":00"
    action := "Emergency restoration initiated"
    timestamp := now - (1 + (d % 89) : ℕ) }

/-- Event of the bin-overflow rule (app.py lines 211-217); draw for
`np.random.randint(1, 120)`. The Python `:.0f` rendering is abstracted by
rounding. -/
def mkBinEvent (now : ℤ) (d : ℕ) (r : WasteRecord) : Event :=
  { type := "WARNING"
    domain := "Waste"
    message := "Bins " ++ toString (ratRoundHalfUp r.avg_bin_fill_percent) ++ "% full in " ++ r.zone
    action := "Scheduled priority pickup"
    timestamp := now - (1 + (d % 119) : ℕ) }

/-- Event of the SLA-breach rule (app.py lines 222-228); draw for
`np.random.randint(1, 45)`. -/
def mkSlaEvent (now : ℤ) (d : ℕ) (r : GrievanceRecord) : Event :=
  { type := "CRITICAL"
    domain := "Citizen Services"
    message := "SLA breach: " ++ r.ticket_id ++ " - " ++ r.issue_type
    action := "Escalated to supervisor"
    timestamp := now - (1 + (d % 44) : ℕ) }

/-- The `events` list of `detect_events` before the final sort (app.py lines
184-228): each rule filters its stream, `head(N)` keeps the first `N` matches
in stream order, and each kept row yields one event. `rng` supplies the
successive `np.random.randint` draws, indexed by overall event position. -/
def detect_events_raw (rng : ℕ → ℕ) (now : ℤ) (g : List GrievanceRecord)
    (e : List EnergyRecord) (t : List TrafficRecord) (w : List WasteRecord) :
    List Event :=
  let te := (t.filter isCriticalCongestion).take 5
  let ee := (e.filter isPowerCut).take 3
  let we := (w.filter isOverflowBin).take 3
  let se := (g.filter isSlaBreach).take 5
  (te.enum.map fun p => mkTrafficEvent now (rng p.1) p.2)
    ++ (ee.enum.map fun p => mkPowerEvent now (rng (te.length + p.1)) p.2)
    ++ (we.enum.map fun p => mkBinEvent now (rng (te.length + ee.length + p.1)) p.2)
    ++ (se.enum.map fun p => mkSlaEvent now (rng (te.length + ee.length + we.length + p.1)) p.2)

/-- Comparison used by `sorted(events, key=lambda x: x['timestamp'],
reverse=True)`: descending by timestamp, stable on ties. -/
def eventLe (a b : Event) : Bool := b.timestamp ≤ a.timestamp

/-- `detect_events` (app.py lines 183-230): generate, then sort by timestamp
descending. -/
def detect_events (rng : ℕ → ℕ) (now : ℤ) (g : List GrievanceRecord)
    (e : List EnergyRecord) (t : List TrafficRecord) (w : List WasteRecord) :
    List Event :=
  (detect_events_raw rng now g e t w).mergeSort eventLe

/-- The timestamp-excluded projection of an event. -/
def eventCore (ev : Event) : String × String × String × String :=
  (ev.type, ev.domain, ev.message, ev.action)

/-! ### Anomaly detection (app.py lines 771-787)

`traffic.groupby('Hour')['Congestion_Index']` yields, per hour, the selection
`ciAtHour`.  The band is `mean ± 2*std` with `std` the sample standard
deviation (pandas `ddof=1`, `NaN` for a single-row group); the observed value
compared against the band is the mean of the same groupby.  The standard
deviation is a square root, so the comparisons `v > m + 2*σ` and
`v < m - 2*σ` (with `σ = √c`, `c ≥ 0` the sample variance) are embedded by
their exact radical-free equivalents `v - m > 0 ∧ (v-m)² > 4c` and
`m - v > 0 ∧ (m-v)² > 4c`; a `NaN` band (`none` variance) compares false, as
in numpy. -/

/-- Congestion indices of the traffic rows of hour `h`. -/
def ciAtHour (t : List TrafficRecord) (h : ℕ) : List ℚ :=
  (t.filter (fun r => r.hour == h)).map (·.congestion_index)

/-- pandas `Series.std()` squared: sample variance with `ddof=1`, `NaN`
(`none`) for fewer than two rows. -/
def sampleVarOpt (l : List ℚ) : Option ℚ :=
  if l.length < 2 then none
  else some ((l.map (fun a => (a - meanQ l) * (a - meanQ l))).sum / ((l.length : ℚ) - 1))

/-- Radical-free embedding of `v > m + 2*√c` (exact for `0 ≤ c`). -/
def exceedsUpper (v m c : ℚ) : Bool := 0 < v - m && 4 * c < (v - m) * (v - m)

/-- Radical-free embedding of `v < m - 2*√c` (exact for `0 ≤ c`). -/
def belowLower (v m c : ℚ) : Bool := 0 < m - v && 4 * c < (m - v) * (m - v)

/-- The flag condition of app.py lines 786-787 for one hour: the first two
scrutinees are the observed groupby mean (`actual_traffic`) and the band
center (`anomaly_data['mean']`), computed by the same groupby expression. -/
def isAnomalousHour (t : List TrafficRecord) (h : ℕ) : Bool :=
  match meanOpt (ciAtHour t h), meanOpt (ciAtHour t h), sampleVarOpt (ciAtHour t h) with
  | some v, some m, some c => exceedsUpper v m c || belowLower v m c
  | _, _, _ => false

/-- The hours flagged as anomalous (`anomalies` dataframe, app.py line 786),
iterating the distinct hours of the groupby. -/
def anomalousHours (t : List TrafficRecord) : List ℕ :=
  ((t.map (·.hour)).dedup).filter (isAnomalousHour t)

/-! ### Correlation matrix (app.py lines 1176-1186)

One row per `(Date, Zone_Name)` key; per stream the groupby mean (or the open
grievance count), outer-joined across the four streams with `fillna(0)`;
`DataFrame.corr()` is pandas `nancorr`: pairwise sample covariance over
sample-variance product, `NaN` (`none`) when the variance product vanishes. -/

/-- `(Date, Zone_Name)` keys of the outer join, in first-appearance order of
the successive merges (order does not affect any correlation value). -/
def corrKeys (g : List GrievanceRecord) (e : List EnergyRecord)
    (t : List TrafficRecord) (w : List WasteRecord) : List (ℕ × String) :=
  ((t.map fun r => (r.date, r.zone)) ++ (e.map fun r => (r.date, r.zone))
    ++ (w.map fun r => (r.date, r.zone))
    ++ ((g.filter isOpen).map fun r => (r.date, r.zone))).dedup

/-- `daily_traffic` value at a key, with `fillna(0)` for absent keys. -/
def trafficAt (t : List TrafficRecord) (k : ℕ × String) : ℚ :=
  (meanOpt ((t.filter (fun r => (r.date, r.zone) == k)).map (·.congestion_index))).getD 0

/-- `daily_energy` value at a key, with `fillna(0)` for absent keys. -/
def energyAt (e : List EnergyRecord) (k : ℕ × String) : ℚ :=
  (meanOpt ((e.filter (fun r => (r.date, r.zone) == k)).map (·.energy_kwh))).getD 0

/-- `daily_waste` value at a key, with `fillna(0)` for absent keys. -/
def wasteAt (w : List WasteRecord) (k : ℕ × String) : ℚ :=
  (meanOpt ((w.filter (fun r => (r.date, r.zone) == k)).map (·.avg_bin_fill_percent))).getD 0

/-- `daily_grievances` open count at a key (absent keys get 0, matching
`fillna(0)`). -/
def openCountAt (g : List GrievanceRecord) (k : ℕ × String) : ℚ :=
  (((g.filter isOpen).filter (fun r => (r.date, r.zone) == k)).length : ℚ)

/-- The four columns of `merged[['Congestion_Index', 'Energy_Consumption_kWh',
'Avg_Bin_Fill_Level_Percent', 'Open_Count']]`, as lists over the joined keys. -/
def corrCol (g : List GrievanceRecord) (e : List EnergyRecord)
    (t : List TrafficRecord) (w : List WasteRecord) : Fin 4 → List ℚ
  | ⟨0, _⟩ => (corrKeys g e t w).map (trafficAt t)
  | ⟨1, _⟩ => (corrKeys g e t w).map (energyAt e)
  | ⟨2, _⟩ => (corrKeys g e t w).map (wasteAt w)
  | ⟨3, _⟩ => (corrKeys g e t w).map (openCountAt g)
  | ⟨n + 4, h⟩ => absurd h (by omega)

/-- Pairwise sample covariance of two equal-length columns (pandas `nancorr`
numerator, `ddof=1`). -/
def sampleCov (xs ys : List ℚ) : ℚ :=
  (List.zipWith (fun a b => (a - meanQ xs) * (b - meanQ ys)) xs ys).sum
    / ((xs.length : ℚ) - 1)

/-- One entry of pandas `DataFrame.corr()`: `cov / sqrt(var_x * var_y)`, and
`NaN` (`none`) when the divisor vanishes. -/
noncomputable def corrEntry (xs ys : List ℚ) : Option ℝ :=
  if sampleCov xs xs * sampleCov ys ys = 0 then none
  else some ((sampleCov xs ys : ℝ) / Real.sqrt ((sampleCov xs xs * sampleCov ys ys : ℚ) : ℝ))

/-- The 4×4 matrix `corr_matrix` of `show_advanced_insights`. -/
noncomputable def corrMatrix (g : List GrievanceRecord) (e : List EnergyRecord)
    (t : List TrafficRecord) (w : List WasteRecord) (i j : Fin 4) : Option ℝ :=
  corrEntry (corrCol g e t w i) (corrCol g e t w j)

/-! ### Theorems -/

/-- Claim C1: the claim asserts that an empty grievance collection yields a
`KPISnapshot` with `resolution_rate = 0`, `critical_issues = 0` and no
exception; the code instead divides `len(...)` by `total_grievances = 0` on
app.py line 155 and raises `ZeroDivisionError` (embedded as `none`), for every
energy/traffic/waste input. -/
theorem calculate_kpis_empty_grievances_raises (e : List EnergyRecord)
    (t : List TrafficRecord) (w : List WasteRecord) :
    calculate_kpis [] e t w = none := rfl

/-- Claim C2: the claim asserts that each mean-valued KPI over an empty
collection equals 0; with empty energy/traffic/waste streams (and one resolved
grievance so that line 155 does not raise) the code instead produces pandas
`NaN` (embedded as `none`) for all four mean-valued KPIs. -/
theorem calculate_kpis_empty_means_nan :
    (calculate_kpis [GrievanceRecord.mk 0 "A" "T1" "Water" "Leak" "Resolved" 5] [] [] []).map
      (fun k => (k.avg_energy, k.avg_congestion, k.avg_bin_fill, k.avg_segregation))
      = some (none, none, none, none) := rfl

/-- Claim C6: the anomaly detector compares each hour's groupby mean against a
band centered at the same groupby mean, so no hour is ever flagged: the
flagged set is empty for every traffic input (including single-record hours,
where the undefined standard deviation compares false). -/
theorem traffic_anomalies_empty (t : List TrafficRecord) : anomalousHours t = [] := by
  unfold anomalousHours
  rw [List.filter_eq_nil_iff]
  intro h _
  unfold isAnomalousHour
  rcases hm : meanOpt (ciAtHour t h) with _ | v
  · simp
  · rcases hv : sampleVarOpt (ciAtHour t h) with _ | c
    · simp
    · simp [exceedsUpper, belowLower]

/-- Claim C9: the list returned by `detect_events` is sorted by timestamp in
descending order: every pair of events in output order (hence in particular
every consecutive pair) has non-increasing timestamps. -/
theorem detect_events_sorted_desc (rng : ℕ → ℕ) (now : ℤ)
    (g : List GrievanceRecord) (e : List EnergyRecord) (t : List TrafficRecord)
    (w : List WasteRecord) :
    (detect_events rng now g e t w).Pairwise
      (fun a b => b.timestamp ≤ a.timestamp) := by
  have hs := @List.sorted_mergeSort Event eventLe
    (fun a b c hab hbc => by
      simp only [eventLe, decide_eq_true_eq] at *
      exact le_trans hbc hab)
    (fun a b => by
      simp only [eventLe, Bool.or_eq_true, decide_eq_true_eq]
      exact le_total b.timestamp a.timestamp)
    (detect_events_raw rng now g e t w)
  exact hs.imp (fun hab => by simpa [eventLe] using hab)

/-- Claim C10: the SLA-breach rule is total on `sla_days`, negative values
included: a grievance with `status = Open` and `sla_days ≤ 1` (in particular
any negative `sla_days`) matches the rule without error, and alone in the
input it produces exactly one Citizen Services event. -/
theorem sla_rule_negative_days (r : GrievanceRecord) (rng : ℕ → ℕ) (now : ℤ)
    (h1 : r.status = "Open") (h2 : r.sla_days ≤ 1) :
    isSlaBreach r = true ∧
    (detect_events rng now [r] [] [] []).countP
      (fun ev => ev.domain == "Citizen Services") = 1 := by
  have hb : isSlaBreach r = true := by
    simp [isSlaBreach, h1, h2]
  refine ⟨hb, ?_⟩
  unfold detect_events
  rw [List.Perm.countP_eq _ (List.mergeSort_perm _ _)]
  simp [detect_events_raw, hb, mkSlaEvent, List.countP_cons]

/-- Witness for `sla_rule_negative_days` at a concrete grievance with
`sla_days = -5`. -/
theorem sla_rule_negative_days_witness :
    (GrievanceRecord.mk 0 "A" "T1" "Water" "Leak" "Open" (-5)).status = "Open" ∧
    (GrievanceRecord.mk 0 "A" "T1" "Water" "Leak" "Open" (-5)).sla_days ≤ 1 ∧
    (detect_events (fun _ => 0) 0
        [GrievanceRecord.mk 0 "A" "T1" "Water" "Leak" "Open" (-5)] [] [] []).countP
      (fun ev => ev.domain == "Citizen Services") = 1 :=
  ⟨rfl, by decide,
    (sla_rule_negative_days (GrievanceRecord.mk 0 "A" "T1" "Water" "Leak" "Open" (-5))
      (fun _ => 0) 0 rfl (by decide)).2⟩

lemma meanOpt_cons (a : ℚ) (l : List ℚ) : meanOpt (a :: l) = some (meanQ (a :: l)) := rfl

lemma foldl_max_mem (x : ℚ) (xs : List ℚ) : xs.foldl max x ∈ x :: xs := by
  induction xs generalizing x with
  | nil => simp
  | cons y ys ih =>
    simp only [List.foldl_cons]
    rcases List.mem_cons.mp (ih (max x y)) with h | h
    · rw [h]
      rcases max_choice x y with hm | hm <;> rw [hm] <;> simp
    · simp [h]

lemma le_foldl_max (x : ℚ) (xs : List ℚ) :
    x ≤ xs.foldl max x ∧ ∀ b ∈ xs, b ≤ xs.foldl max x := by
  induction xs generalizing x with
  | nil => simp
  | cons y ys ih =>
    obtain ⟨h1, h2⟩ := ih (max x y)
    simp only [List.foldl_cons]
    refine ⟨le_trans (le_max_left x y) h1, ?_⟩
    intro b hb
    rcases List.mem_cons.mp hb with hby | hb
    · rw [hby]
      exact le_trans (le_max_right x y) h1
    · exact h2 b hb

/-- Claim C8: whenever `calculate_kpis` returns and the traffic set is
non-empty, `avg_congestion` is the mean of the congestion indices,
`flow_efficiency` is exactly `1 - avg_congestion/100`, and `peak_congestion`
is an attained upper bound of the congestion indices. -/
theorem flow_efficiency_formula (g : List GrievanceRecord) (e : List EnergyRecord)
    (t : List TrafficRecord) (w : List WasteRecord) (k : KPISnapshot)
    (hk : calculate_kpis g e t w = some k) (ht : t ≠ []) :
    k.avg_congestion = some (meanQ (t.map (·.congestion_index))) ∧
    k.flow_efficiency = some (1 - meanQ (t.map (·.congestion_index)) / 100) ∧
    ∃ p, k.peak_congestion = some p ∧ p ∈ t.map (·.congestion_index) ∧
      ∀ q ∈ t.map (·.congestion_index), q ≤ p := by
  unfold calculate_kpis at hk
  by_cases hg : g.length = 0
  · rw [if_pos hg] at hk
    cases hk
  · rw [if_neg hg] at hk
    have hk' := (Option.some.inj hk).symm
    subst hk'
    have hne : t.map (·.congestion_index) ≠ [] := by
      intro hc
      exact ht (List.map_eq_nil_iff.mp hc)
    rcases hmap : t.map (·.congestion_index) with _ | ⟨a, l⟩
    · exact absurd hmap hne
    · refine ⟨?_, ?_, ?_⟩
      · show meanOpt (t.map (·.congestion_index)) = _
        rw [hmap]
        rfl
      · show (meanOpt (t.map (·.congestion_index))).map _ = _
        rw [hmap]
        rfl
      · refine ⟨l.foldl max a, ?_, ?_, ?_⟩
        · show maxOpt (t.map (·.congestion_index)) = _
          rw [hmap]
          rfl
        · rw [hmap]
          exact foldl_max_mem a l
        · rw [hmap]
          intro q hq
          rcases List.mem_cons.mp hq with rfl | hq
          · exact (le_foldl_max q l).1
          · exact (le_foldl_max a l).2 q hq

/-- Witness for `flow_efficiency_formula`: one grievance and one traffic row
with congestion index 40 give `avg_congestion = 40` and
`flow_efficiency = 1 - 40/100 = 3/5`. -/
theorem flow_efficiency_formula_witness :
    (calculate_kpis [GrievanceRecord.mk 0 "A" "T1" "Water" "Leak" "Resolved" 5]
        [] [TrafficRecord.mk 0 0 "A" 40] []).map (·.avg_congestion)
      = some (some 40) ∧
    (calculate_kpis [GrievanceRecord.mk 0 "A" "T1" "Water" "Leak" "Resolved" 5]
        [] [TrafficRecord.mk 0 0 "A" 40] []).map (·.flow_efficiency)
      = some (some (3 / 5)) := by
  obtain ⟨k, hk⟩ : ∃ k, calculate_kpis
      [GrievanceRecord.mk 0 "A" "T1" "Water" "Leak" "Resolved" 5]
      [] [TrafficRecord.mk 0 0 "A" 40] [] = some k := ⟨_, rfl⟩
  obtain ⟨h1, h2, _⟩ := flow_efficiency_formula _ _ _ _ k hk (by simp)
  rw [hk]
  constructor
  · rw [Option.map_some', h1]
    norm_num [meanQ]
  · rw [Option.map_some', h2]
    norm_num [meanQ]

lemma lookup_map_self {β : Type} (zs : List String) (f : String → β) (z : String)
    (hz : z ∈ zs) :
    List.lookup z (zs.map fun a => (a, f a)) = some (f z) := by
  induction zs with
  | nil => cases hz
  | cons a tl ih =>
    by_cases h : z = a
    · subst h
      simp [List.lookup]
    · have hz' : z ∈ tl := by
        rcases List.mem_cons.mp hz with h' | h'
        · exact absurd h' h
        · exact h'
      have hb : (z == a) = false := beq_eq_false_iff_ne.mpr h
      simp only [List.map_cons, List.lookup, hb]
      exact ih hz'

lemma lookup_map_self_none {β : Type} (zs : List String) (f : String → β) (z : String)
    (hz : z ∉ zs) :
    List.lookup z (zs.map fun a => (a, f a)) = none := by
  induction zs with
  | nil => rfl
  | cons a tl ih =>
    have h : z ≠ a := fun h => hz (h ▸ List.mem_cons_self a tl)
    have hz' : z ∉ tl := fun h => hz (List.mem_cons_of_mem a h)
    have hb : (z == a) = false := beq_eq_false_iff_ne.mpr h
    simp only [List.map_cons, List.lookup, hb]
    exact ih hz'

lemma sum_flags_eq_countP (l : List EnergyRecord)
    (hf : ∀ r ∈ l, r.power_cut_flag = 0 ∨ r.power_cut_flag = 1) :
    (l.map (·.power_cut_flag)).sum = l.countP isPowerCut := by
  induction l with
  | nil => rfl
  | cons r tl ih =>
    have hr := hf r (List.mem_cons_self r tl)
    have htl := ih (fun x hx => hf x (List.mem_cons_of_mem r hx))
    simp only [List.map_cons, List.sum_cons, List.countP_cons]
    rcases hr with h0 | h1
    · simp [isPowerCut, h0, htl]
    · simp only [isPowerCut, h1, htl]
      simp
      omega

/-- Claim C4: exactly the zones of the traffic stream get a stress entry, and
the entry is `mean(congestion) + 20*count(power_cut_flag=1) +
10*sum(missed_pickups) + 5*count(open grievances)` (the code sums the flags,
which coincides with the count because each flag is 0 or 1). -/
theorem zone_stress_formula (g : List GrievanceRecord) (e : List EnergyRecord)
    (t : List TrafficRecord) (w : List WasteRecord) (z : String)
    (hflag : ∀ r ∈ e, r.power_cut_flag = 0 ∨ r.power_cut_flag = 1) :
    (z ∈ t.map (·.zone) →
      List.lookup z (zoneStressMap g e t w) =
        some (some (meanQ ((t.filter (fun r => r.zone == z)).map (·.congestion_index))
          + 20 * ((e.filter (fun r => r.zone == z)).countP isPowerCut : ℚ)
          + 10 * ((((w.filter (fun r => r.zone == z)).map (·.missed_pickups)).sum : ℕ) : ℚ)
          + 5 * (((g.filter (fun r => r.zone == z && isOpen r)).length : ℚ))))) ∧
    (z ∉ t.map (·.zone) → List.lookup z (zoneStressMap g e t w) = none) := by
  constructor
  · intro hz
    have hz' : z ∈ (t.map (·.zone)).dedup := List.mem_dedup.mpr hz
    rw [zoneStressMap, lookup_map_self _ _ _ hz']
    obtain ⟨r, hr, hrz⟩ := List.mem_map.mp hz
    have hmem : r ∈ t.filter (fun r => r.zone == z) :=
      List.mem_filter.mpr ⟨hr, by simp [hrz]⟩
    have hne : (t.filter (fun r => r.zone == z)).map (·.congestion_index) ≠ [] := by
      intro hc
      rw [List.map_eq_nil_iff] at hc
      rw [hc] at hmem
      cases hmem
    unfold zoneStress
    rcases hmap : (t.filter (fun r => r.zone == z)).map (·.congestion_index) with _ | ⟨a, l⟩
    · exact absurd hmap hne
    · rw [hmap, meanOpt_cons, Option.map_some', ← hmap,
        sum_flags_eq_countP _ (fun x hx => hflag x (List.mem_filter.mp hx).1)]
      simp only [Option.some.injEq]
      push_cast
      ring
  · intro hz
    rw [zoneStressMap]
    apply lookup_map_self_none
    intro hmem
    exact hz (List.mem_dedup.mp hmem)

/-- Witness for `zone_stress_formula`: zone A with one traffic row
(congestion 10), one power cut, two missed pickups and one open grievance
scores `10 + 20 + 20 + 5 = 55`; a zone absent from traffic has no entry. -/
theorem zone_stress_formula_witness :
    (∀ r ∈ [EnergyRecord.mk 0 0 "A" 5 230 1], r.power_cut_flag = 0 ∨ r.power_cut_flag = 1) ∧
    "A" ∈ ([TrafficRecord.mk 0 0 "A" 10].map (·.zone)) ∧
    List.lookup ("A") (zoneStressMap [GrievanceRecord.mk 0 "A" "T1" "Water" "Leak" "Open" 0]
        [EnergyRecord.mk 0 0 "A" 5 230 1] [TrafficRecord.mk 0 0 "A" 10]
        [WasteRecord.mk 0 "A" 100 50 60 2]) = some (some 55) := by
  refine ⟨by decide, by decide, ?_⟩
  rw [(zone_stress_formula [GrievanceRecord.mk 0 "A" "T1" "Water" "Leak" "Open" 0]
      [EnergyRecord.mk 0 0 "A" 5 230 1] [TrafficRecord.mk 0 0 "A" 10]
      [WasteRecord.mk 0 "A" 100 50 60 2] ("A") (by decide)).1 (by decide)]
  norm_num [meanQ, isPowerCut, isOpen]

lemma countP_enum_map_cases {α : Type} (l : List α) (f : ℕ × α → Event)
    (p : Event → Bool) (c : Bool) (hc : ∀ q, p (f q) = c) :
    (l.enum.map f).countP p = if c then l.length else 0 := by
  cases c with
  | false =>
    rw [if_neg Bool.false_ne_true]
    refine List.countP_eq_zero.mpr ?_
    intro ev hev
    obtain ⟨q, _, rfl⟩ := List.mem_map.mp hev
    simp [hc q]
  | true =>
    rw [if_pos rfl]
    have hall : ∀ ev ∈ l.enum.map f, p ev = true := by
      intro ev hev
      obtain ⟨q, _, rfl⟩ := List.mem_map.mp hev
      exact hc q
    rw [List.countP_eq_length.mpr hall]
    simp

lemma detect_events_countP (rng : ℕ → ℕ) (now : ℤ) (g : List GrievanceRecord)
    (e : List EnergyRecord) (t : List TrafficRecord) (w : List WasteRecord)
    (p : Event → Bool) (c1 c2 c3 c4 : Bool)
    (h1 : ∀ n d r, p (mkTrafficEvent n d r) = c1)
    (h2 : ∀ n d r, p (mkPowerEvent n d r) = c2)
    (h3 : ∀ n d r, p (mkBinEvent n d r) = c3)
    (h4 : ∀ n d r, p (mkSlaEvent n d r) = c4) :
    (detect_events rng now g e t w).countP p =
      (if c1 then min 5 (t.countP isCriticalCongestion) else 0)
      + (if c2 then min 3 (e.countP isPowerCut) else 0)
      + (if c3 then min 3 (w.countP isOverflowBin) else 0)
      + (if c4 then min 5 (g.countP isSlaBreach) else 0) := by
  unfold detect_events
  rw [List.Perm.countP_eq _ (List.mergeSort_perm _ _)]
  unfold detect_events_raw
  simp only [List.countP_append]
  rw [countP_enum_map_cases _ _ _ c1 (fun q => h1 now (rng q.1) q.2),
    countP_enum_map_cases _ _ _ c2 (fun q => h2 now (rng _) q.2),
    countP_enum_map_cases _ _ _ c3 (fun q => h3 now (rng _) q.2),
    countP_enum_map_cases _ _ _ c4 (fun q => h4 now (rng _) q.2)]
  simp only [List.length_take, List.countP_eq_length_filter]

/-- Claim C3: `detect_events` applies exactly the four rules with their caps —
CRITICAL Traffic for congestion over 85 capped at 5, CRITICAL Energy for
power-cut flag 1 capped at 3, WARNING Waste for bin fill over 85 capped at 3,
CRITICAL Citizen Services for open grievances with sla_days at most 1 capped
at 5 — one event per matching record taken in stream order, the event total
being the sum of the four capped match counts; congestion values
[90, 95, 70, 60, 55] give exactly 2 CRITICAL traffic events, and bin-fill
values [90, 86, 80] give exactly 2 WARNING waste events, namely the first two
in stream order (messages for 90 and 86, none for 80). -/
theorem detect_events_rules_and_caps :
    (∀ (rng : ℕ → ℕ) (now : ℤ) (g : List GrievanceRecord) (e : List EnergyRecord)
      (t : List TrafficRecord) (w : List WasteRecord),
      ((detect_events rng now g e t w).countP
          (fun ev => ev.domain == "Traffic" && ev.type == "CRITICAL")
        = min 5 (t.countP isCriticalCongestion)) ∧
      ((detect_events rng now g e t w).countP
          (fun ev => ev.domain == "Energy" && ev.type == "CRITICAL")
        = min 3 (e.countP isPowerCut)) ∧
      ((detect_events rng now g e t w).countP
          (fun ev => ev.domain == "Waste" && ev.type == "WARNING")
        = min 3 (w.countP isOverflowBin)) ∧
      ((detect_events rng now g e t w).countP
          (fun ev => ev.domain == "Citizen Services" && ev.type == "CRITICAL")
        = min 5 (g.countP isSlaBreach)) ∧
      ((detect_events rng now g e t w).length
        = min 5 (t.countP isCriticalCongestion) + min 3 (e.countP isPowerCut)
          + min 3 (w.countP isOverflowBin) + min 5 (g.countP isSlaBreach))) ∧
    ((detect_events (fun _ => 0) 0 [] [] [TrafficRecord.mk 0 0 "A" 90,
        TrafficRecord.mk 0 1 "A" 95, TrafficRecord.mk 0 2 "A" 70,
        TrafficRecord.mk 0 3 "A" 60, TrafficRecord.mk 0 4 "A" 55] []).countP
      (fun ev => ev.domain == "Traffic" && ev.type == "CRITICAL") = 2) ∧
    ((detect_events (fun _ => 0) 0 [] [] [] [WasteRecord.mk 0 "A" 100 90 60 0,
        WasteRecord.mk 0 "B" 100 86 60 0, WasteRecord.mk 0 "C" 100 80 60 0]).countP
      (fun ev => ev.domain == "Waste" && ev.type == "WARNING") = 2 ∧
     (detect_events (fun _ => 0) 0 [] [] [] [WasteRecord.mk 0 "A" 100 90 60 0,
        WasteRecord.mk 0 "B" 100 86 60 0, WasteRecord.mk 0 "C" 100 80 60 0]).countP
      (fun ev => ev.message == "Bins 90% full in A") = 1 ∧
     (detect_events (fun _ => 0) 0 [] [] [] [WasteRecord.mk 0 "A" 100 90 60 0,
        WasteRecord.mk 0 "B" 100 86 60 0, WasteRecord.mk 0 "C" 100 80 60 0]).countP
      (fun ev => ev.message == "Bins 86% full in B") = 1 ∧
     (detect_events (fun _ => 0) 0 [] [] [] [WasteRecord.mk 0 "A" 100 90 60 0,
        WasteRecord.mk 0 "B" 100 86 60 0, WasteRecord.mk 0 "C" 100 80 60 0]).countP
      (fun ev => ev.message == "Bins 80% full in C") = 0) := by
  refine ⟨?_, ?_, ?_⟩
  · intro rng now g e t w
    refine ⟨?_, ?_, ?_, ?_, ?_⟩
    · rw [detect_events_countP rng now g e t w _ true false false false
        (fun n d r => rfl) (fun n d r => rfl) (fun n d r => rfl) (fun n d r => rfl)]
      simp
    · rw [detect_events_countP rng now g e t w _ false true false false
        (fun n d r => rfl) (fun n d r => rfl) (fun n d r => rfl) (fun n d r => rfl)]
      simp
    · rw [detect_events_countP rng now g e t w _ false false true false
        (fun n d r => rfl) (fun n d r => rfl) (fun n d r => rfl) (fun n d r => rfl)]
      simp
    · rw [detect_events_countP rng now g e t w _ false false false true
        (fun n d r => rfl) (fun n d r => rfl) (fun n d r => rfl) (fun n d r => rfl)]
      simp
    · have h := detect_events_countP rng now g e t w (fun _ => true) true true true true
        (fun n d r => rfl) (fun n d r => rfl) (fun n d r => rfl) (fun n d r => rfl)
      rw [List.countP_true] at h
      rw [h]
      simp
  · rw [detect_events_countP _ _ _ _ _ _ _ true false false false
      (fun n d r => rfl) (fun n d r => rfl) (fun n d r => rfl) (fun n d r => rfl)]
    decide
  · refine ⟨?_, ?_, ?_, ?_⟩
    · rw [detect_events_countP _ _ _ _ _ _ _ false false true false
        (fun n d r => rfl) (fun n d r => rfl) (fun n d r => rfl) (fun n d r => rfl)]
      decide
    · unfold detect_events
      rw [List.Perm.countP_eq _ (List.mergeSort_perm _ _)]
      decide
    · unfold detect_events
      rw [List.Perm.countP_eq _ (List.mergeSort_perm _ _)]
      decide
    · unfold detect_events
      rw [List.Perm.countP_eq _ (List.mergeSort_perm _ _)]
      decide

lemma map_core_enum {α : Type} (l : List α) (mk : ℤ → ℕ → α → Event) (now : ℤ)
    (f : ℕ × α → ℕ) (hcore : ∀ n k r, eventCore (mk n k r) = eventCore (mk 0 0 r)) :
    (l.enum.map (fun p => mk now (f p) p.2)).map eventCore
      = l.map (fun r => eventCore (mk 0 0 r)) := by
  rw [List.map_map]
  have h : (eventCore ∘ fun p : ℕ × α => mk now (f p) p.2)
      = (fun r => eventCore (mk 0 0 r)) ∘ Prod.snd := by
    funext p
    exact hcore now (f p) p.2
  rw [h, ← List.map_map, List.enum_map_snd]

lemma eventCore_raw (rng : ℕ → ℕ) (now : ℤ) (g : List GrievanceRecord)
    (e : List EnergyRecord) (t : List TrafficRecord) (w : List WasteRecord) :
    (detect_events_raw rng now g e t w).map eventCore =
      ((t.filter isCriticalCongestion).take 5).map (fun r => eventCore (mkTrafficEvent 0 0 r))
      ++ ((e.filter isPowerCut).take 3).map (fun r => eventCore (mkPowerEvent 0 0 r))
      ++ ((w.filter isOverflowBin).take 3).map (fun r => eventCore (mkBinEvent 0 0 r))
      ++ ((g.filter isSlaBreach).take 5).map (fun r => eventCore (mkSlaEvent 0 0 r)) := by
  unfold detect_events_raw
  simp only [List.map_append]
  rw [map_core_enum _ mkTrafficEvent _ _ (fun n k r => rfl),
    map_core_enum _ mkPowerEvent _ _ (fun n k r => rfl),
    map_core_enum _ mkBinEvent _ _ (fun n k r => rfl),
    map_core_enum _ mkSlaEvent _ _ (fun n k r => rfl)]

/-- Claim C7: the timestamp-excluded projection of the `detect_events` output
is a deterministic function of the input: for any two runs (any detection
times, any random draw streams) over the same filtered collections, the
multisets of (severity, domain, message, action) tuples coincide. -/
theorem detect_events_deterministic_multiset (g : List GrievanceRecord)
    (e : List EnergyRecord) (t : List TrafficRecord) (w : List WasteRecord)
    (rng₁ rng₂ : ℕ → ℕ) (now₁ now₂ : ℤ) :
    ((detect_events rng₁ now₁ g e t w).map eventCore :
        Multiset (String × String × String × String)) =
    ((detect_events rng₂ now₂ g e t w).map eventCore :
        Multiset (String × String × String × String)) := by
  apply Multiset.coe_eq_coe.mpr
  have p₁ : List.Perm ((detect_events rng₁ now₁ g e t w).map eventCore)
      ((detect_events_raw rng₁ now₁ g e t w).map eventCore) :=
    (List.mergeSort_perm _ _).map _
  have p₂ : List.Perm ((detect_events rng₂ now₂ g e t w).map eventCore)
      ((detect_events_raw rng₂ now₂ g e t w).map eventCore) :=
    (List.mergeSort_perm _ _).map _
  have heq : (detect_events_raw rng₁ now₁ g e t w).map eventCore =
      (detect_events_raw rng₂ now₂ g e t w).map eventCore := by
    rw [eventCore_raw, eventCore_raw]
  exact p₁.trans (heq ▸ p₂.symm)

lemma sum_range_getD_mul : ∀ (us vs : List ℚ) (n : ℕ),
    min us.length vs.length ≤ n →
    ∑ i in Finset.range n, us.getD i 0 * vs.getD i 0
      = (List.zipWith (fun a b => a * b) us vs).sum
  | [], vs, n, _ => by
    simp
  | u :: us, [], n, _ => by
    simp
  | u :: us, v :: vs, n, h => by
    obtain ⟨m, rfl⟩ : ∃ m, n = m + 1 := ⟨n - 1, by simp at h; omega⟩
    rw [Finset.sum_range_succ']
    simp only [List.getD_cons_succ, List.getD_cons_zero]
    rw [sum_range_getD_mul us vs m (by simp at h ⊢; omega)]
    simp [add_comm]

lemma list_cs (us vs : List ℚ) :
    ((List.zipWith (fun a b => a * b) us vs).sum) ^ 2
      ≤ (us.map (fun a => a * a)).sum * (vs.map (fun a => a * a)).sum := by
  have hmul := sum_range_getD_mul us vs (max us.length vs.length)
    (le_trans (min_le_left _ _) (le_max_left _ _))
  have h1 := sum_range_getD_mul us us (max us.length vs.length)
    (by rw [min_self]; exact le_max_left _ _)
  have h2 := sum_range_getD_mul vs vs (max us.length vs.length)
    (by rw [min_self]; exact le_max_right _ _)
  rw [List.zipWith_same] at h1 h2
  rw [← hmul, ← h1, ← h2]
  have hcs := Finset.sum_mul_sq_le_sq_mul_sq (Finset.range (max us.length vs.length))
    (fun i => us.getD i 0) (fun i => vs.getD i 0)
  simpa [pow_two] using hcs

lemma sampleCov_eq (xs ys : List ℚ) :
    sampleCov xs ys = (List.zipWith (fun a b => a * b)
        (xs.map (fun a => a - meanQ xs)) (ys.map (fun b => b - meanQ ys))).sum
      / ((xs.length : ℚ) - 1) := by
  unfold sampleCov
  rw [List.zipWith_map]

lemma sampleCov_self_eq (xs : List ℚ) :
    sampleCov xs xs = (xs.map (fun a => (a - meanQ xs) * (a - meanQ xs))).sum
      / ((xs.length : ℚ) - 1) := by
  unfold sampleCov
  rw [List.zipWith_same]

lemma sampleCov_self_nonneg (xs : List ℚ) : 0 ≤ sampleCov xs xs := by
  rw [sampleCov_self_eq]
  have hs : 0 ≤ (xs.map (fun x => (x - meanQ xs) * (x - meanQ xs))).sum := by
    apply List.sum_nonneg
    intro x hx
    obtain ⟨y, _, rfl⟩ := List.mem_map.mp hx
    exact mul_self_nonneg _
  rcases xs with _ | ⟨a, l⟩
  · simp
  · rcases l with _ | ⟨b, l'⟩
    · simp [meanQ]
    · have hd : 0 < (((a :: b :: l').length : ℚ)) - 1 := by
        have h2 : (2:ℚ) ≤ ((a :: b :: l').length : ℚ) := by
          have : 2 ≤ (a :: b :: l').length := by simp
          exact_mod_cast this
        linarith
      exact div_nonneg hs (le_of_lt hd)

lemma sampleCov_comm (xs ys : List ℚ) (hl : xs.length = ys.length) :
    sampleCov xs ys = sampleCov ys xs := by
  unfold sampleCov
  rw [hl, List.zipWith_comm]
  have hf : (fun (b a : ℚ) => (a - meanQ xs) * (b - meanQ ys))
      = (fun (b a : ℚ) => (b - meanQ ys) * (a - meanQ xs)) := by
    funext b a
    ring
  rw [hf]

lemma sampleCov_sq_le (xs ys : List ℚ) (hl : xs.length = ys.length) :
    (sampleCov xs ys) ^ 2 ≤ sampleCov xs xs * sampleCov ys ys := by
  rw [sampleCov_eq xs ys, sampleCov_self_eq xs, sampleCov_self_eq ys, ← hl]
  by_cases hd : ((xs.length : ℚ) - 1) = 0
  · simp [hd]
  · rw [div_pow, div_mul_div_comm, ← pow_two ((xs.length : ℚ) - 1)]
    have hd2 : 0 < ((xs.length : ℚ) - 1) ^ 2 := by positivity
    rw [div_le_div_iff_of_pos_right hd2]
    have hcs := list_cs (xs.map (fun a => a - meanQ xs)) (ys.map (fun b => b - meanQ ys))
    simpa [List.map_map, Function.comp_def] using hcs

lemma corrEntry_symm (xs ys : List ℚ) (hl : xs.length = ys.length) :
    corrEntry xs ys = corrEntry ys xs := by
  unfold corrEntry
  rw [sampleCov_comm xs ys hl, mul_comm (sampleCov xs xs) (sampleCov ys ys)]

lemma corrEntry_diag (xs : List ℚ) (h : sampleCov xs xs ≠ 0) :
    corrEntry xs xs = some 1 := by
  unfold corrEntry
  rw [if_neg (by simpa [mul_self_eq_zero] using h)]
  have hv : (0:ℚ) ≤ sampleCov xs xs := sampleCov_self_nonneg xs
  simp only [Option.some.injEq]
  have hcast : ((sampleCov xs xs * sampleCov xs xs : ℚ) : ℝ)
      = ((sampleCov xs xs : ℚ) : ℝ) * ((sampleCov xs xs : ℚ) : ℝ) := by
    push_cast
    ring
  rw [hcast, Real.sqrt_mul_self (by exact_mod_cast hv)]
  exact div_self (by exact_mod_cast h)

lemma corrEntry_mem_Icc (xs ys : List ℚ) (hl : xs.length = ys.length) (c : ℝ)
    (hc : corrEntry xs ys = some c) : -1 ≤ c ∧ c ≤ 1 := by
  unfold corrEntry at hc
  by_cases h0 : sampleCov xs xs * sampleCov ys ys = 0
  · rw [if_pos h0] at hc
    cases hc
  · rw [if_neg h0] at hc
    have hc' := (Option.some.inj hc).symm
    have hvx := sampleCov_self_nonneg xs
    have hvy := sampleCov_self_nonneg ys
    have hD : (0:ℚ) < sampleCov xs xs * sampleCov ys ys :=
      lt_of_le_of_ne (mul_nonneg hvx hvy) (Ne.symm h0)
    have hDR : (0:ℝ) < ((sampleCov xs xs * sampleCov ys ys : ℚ) : ℝ) := by
      exact_mod_cast hD
    have hsq : ((sampleCov xs ys : ℚ) : ℝ) ^ 2
        ≤ ((sampleCov xs xs * sampleCov ys ys : ℚ) : ℝ) := by
      exact_mod_cast sampleCov_sq_le xs ys hl
    have habs : |((sampleCov xs ys : ℚ) : ℝ)|
        ≤ Real.sqrt ((sampleCov xs xs * sampleCov ys ys : ℚ) : ℝ) := by
      rw [← Real.sqrt_sq_eq_abs]
      exact Real.sqrt_le_sqrt hsq
    have hsp : (0:ℝ) < Real.sqrt ((sampleCov xs xs * sampleCov ys ys : ℚ) : ℝ) :=
      Real.sqrt_pos.mpr hDR
    have habs' : |c| ≤ 1 := by
      rw [hc', abs_div, abs_of_pos hsp]
      exact (div_le_one hsp).mpr habs
    exact abs_le.mp habs'

lemma corrCol_length (g : List GrievanceRecord) (e : List EnergyRecord)
    (t : List TrafficRecord) (w : List WasteRecord) (i : Fin 4) :
    (corrCol g e t w i).length = (corrKeys g e t w).length := by
  rcases i with ⟨iv, hi⟩
  interval_cases iv <;> simp [corrCol]

/-- Claim C5 (amended): the 4×4 correlation matrix over the outer-joined
(date, zone) rows is symmetric and every defined entry lies in [−1, 1]; the
diagonal entry of a column with nonzero variance is exactly 1; a zero-variance
column yields an undefined (NaN) entry instead of 1 (see the
counterexample). -/
theorem corr_matrix_props (g : List GrievanceRecord) (e : List EnergyRecord)
    (t : List TrafficRecord) (w : List WasteRecord) :
    (∀ i j, corrMatrix g e t w i j = corrMatrix g e t w j i) ∧
    (∀ i, sampleCov (corrCol g e t w i) (corrCol g e t w i) ≠ 0 →
      corrMatrix g e t w i i = some 1) ∧
    (∀ i j (c : ℝ), corrMatrix g e t w i j = some c → -1 ≤ c ∧ c ≤ 1) :=
  ⟨fun i j => corrEntry_symm _ _ (by rw [corrCol_length, corrCol_length]),
    fun i h => corrEntry_diag _ h,
    fun i j c hc => corrEntry_mem_Icc _ _ (by rw [corrCol_length, corrCol_length]) c hc⟩

/-- Witness for `corr_matrix_props`: two traffic rows for zone A on different
dates (congestion 10 and 30) give the congestion column [10, 30] with sample
variance 200 ≠ 0, so its diagonal entry is exactly 1. -/
theorem corr_matrix_props_witness :
    sampleCov (corrCol [] [] [TrafficRecord.mk 0 0 "A" 10, TrafficRecord.mk 1 0 "A" 30] [] 0)
        (corrCol [] [] [TrafficRecord.mk 0 0 "A" 10, TrafficRecord.mk 1 0 "A" 30] [] 0) ≠ 0 ∧
    corrMatrix [] [] [TrafficRecord.mk 0 0 "A" 10, TrafficRecord.mk 1 0 "A" 30] [] 0 0
      = some 1 := by
  have hcol : corrCol [] [] [TrafficRecord.mk 0 0 "A" 10, TrafficRecord.mk 1 0 "A" 30] [] 0
      = [10, 30] := by
    show (corrKeys [] [] [TrafficRecord.mk 0 0 "A" 10, TrafficRecord.mk 1 0 "A" 30] []).map
      (trafficAt [TrafficRecord.mk 0 0 "A" 10, TrafficRecord.mk 1 0 "A" 30]) = [10, 30]
    rw [show corrKeys [] [] [TrafficRecord.mk 0 0 "A" 10, TrafficRecord.mk 1 0 "A" 30] []
        = [(0, "A"), (1, "A")] from by decide]
    show [trafficAt _ (0, "A"), trafficAt _ (1, "A")] = [10, 30]
    norm_num [trafficAt, meanOpt, meanQ]
  have hvar : sampleCov
      (corrCol [] [] [TrafficRecord.mk 0 0 "A" 10, TrafficRecord.mk 1 0 "A" 30] [] 0)
      (corrCol [] [] [TrafficRecord.mk 0 0 "A" 10, TrafficRecord.mk 1 0 "A" 30] [] 0) ≠ 0 := by
    rw [hcol]
    norm_num [sampleCov, meanQ]
  exact ⟨hvar, (corr_matrix_props [] []
    [TrafficRecord.mk 0 0 "A" 10, TrafficRecord.mk 1 0 "A" 30] []).2.1 0 hvar⟩

/-- Counterexample for claim C5 as stated: with the same two traffic rows and
no grievances, the open-grievance column is constantly 0 (zero variance), and
its diagonal entry of `DataFrame.corr()` is `NaN` (`none`), not 1. -/
theorem corr_matrix_zero_variance_diag :
    corrMatrix [] [] [TrafficRecord.mk 0 0 "A" 10, TrafficRecord.mk 1 0 "A" 30] [] 3 3
      = none ∧
    corrMatrix [] [] [TrafficRecord.mk 0 0 "A" 10, TrafficRecord.mk 1 0 "A" 30] [] 3 3
      ≠ some 1 := by
  have hcol : corrCol [] [] [TrafficRecord.mk 0 0 "A" 10, TrafficRecord.mk 1 0 "A" 30] [] 3
      = [0, 0] := by
    show (corrKeys [] [] [TrafficRecord.mk 0 0 "A" 10, TrafficRecord.mk 1 0 "A" 30] []).map
      (openCountAt []) = [0, 0]
    rw [show corrKeys [] [] [TrafficRecord.mk 0 0 "A" 10, TrafficRecord.mk 1 0 "A" 30] []
        = [(0, "A"), (1, "A")] from by decide]
    norm_num [openCountAt, isOpen]
  have hzero : corrMatrix [] [] [TrafficRecord.mk 0 0 "A" 10, TrafficRecord.mk 1 0 "A" 30] [] 3 3
      = none := by
    show corrEntry _ _ = none
    rw [hcol]
    unfold corrEntry
    rw [if_pos (by norm_num [sampleCov, meanQ])]
  exact ⟨hzero, by rw [hzero]; simp⟩

end Vishleshan
